import Mathlib

/-!
Verification development for the lipservice pattern-intelligence and
adaptive-sampling engine.

The Python sources are shallowly embedded: pure functions become Lean
functions, Python dicts become association lists (insertion-ordered, unique
keys, exactly like Python dicts), floats become rationals, `datetime`
timestamps become naturals, and the stateful sampler becomes explicit state
passing.  External collaborators (the LLM provider, the HTTP client, the
DBSCAN clustering call) are modelled as explicit inputs, since the claims
under study quantify over their outcomes.
-/

namespace LipService

/-! ### Association lists (Python dict embedding)

Python dicts keep insertion order and have unique keys.  `lookupKV` is
`d.get(k)`, `setKV` is `d[k] = v` (update in place if present, else append),
`incKV` is `defaultdict(int)` increment. -/

def lookupKV {α : Type} (k : String) : List (String × α) → Option α
  | [] => none
  | (k1, v) :: rest => if k1 = k then some v else lookupKV k rest

def setKV {α : Type} (k : String) (v : α) : List (String × α) → List (String × α)
  | [] => [(k, v)]
  | (k1, v1) :: rest => if k1 = k then (k, v) :: rest else (k1, v1) :: setKV k v rest

def incKV (k : String) (d : List (String × Nat)) : List (String × Nat) :=
  setKV k ((lookupKV k d).getD 0 + 1) d

/-! ### Policy generator (src/engine/llm_provider.py, src/engine/policy_generator.py) -/

/-- `PolicyResponse` dataclass from src/engine/llm_provider.py.  Floats are
modelled as rationals. -/
structure PolicyResponse where
  global_rate : ℚ
  severity_rates : List (String × ℚ)
  pattern_rates : List (String × ℚ)
  anomaly_boost : ℚ
  reasoning : String
  model : String

/-- `PolicyGenerator._validate_and_fix_policy` from
src/engine/policy_generator.py: forces ERROR and CRITICAL severity rates to
1.0, clamps `global_rate` into [0,1] by two sequential ifs, raises
`anomaly_boost` to at least 1.0, and clamps every `pattern_rates` value into
[0,1] (each if tests the original value, which is what the Python loop
does).  No other severity rate is touched. -/
def validate_and_fix_policy (p : PolicyResponse) : PolicyResponse :=
  let sr := setKV "CRITICAL" (1 : ℚ) (setKV "ERROR" (1 : ℚ) p.severity_rates)
  let g1 := if p.global_rate < 0 then (0 : ℚ) else p.global_rate
  let g2 := if g1 > 1 then (1 : ℚ) else g1
  let ab := if p.anomaly_boost < 1 then (1 : ℚ) else p.anomaly_boost
  let pr := p.pattern_rates.map fun kv =>
    (kv.1, if kv.2 < 0 then (0 : ℚ) else if kv.2 > 1 then (1 : ℚ) else kv.2)
  { p with severity_rates := sr, global_rate := g2, anomaly_boost := ab, pattern_rates := pr }

/-- `RuleBasedProvider.generate_policy` from src/engine/llm_provider.py. -/
def ruleBasedPolicy : PolicyResponse :=
  { global_rate := 1
    severity_rates :=
      [("DEBUG", (5 : ℚ)/100), ("INFO", (2 : ℚ)/10), ("WARNING", (5 : ℚ)/10),
       ("ERROR", 1), ("CRITICAL", 1)]
    pattern_rates := []
    anomaly_boost := 3
    reasoning := "Conservative rule-based policy - LLM unavailable or disabled"
    model := "rule-based" }

/-- `PolicyGenerator.generate_policy` applied to an arbitrary provider
response: the provider output is validated by `_validate_and_fix_policy`
before being returned. -/
def generate_policy (providerOutput : PolicyResponse) : PolicyResponse :=
  validate_and_fix_policy providerOutput

theorem lookupKV_setKV_same {α : Type} (k : String) (v : α) (l : List (String × α)) :
    lookupKV k (setKV k v l) = some v := by
  induction l with
  | nil => simp [lookupKV, setKV]
  | cons kv rest ih =>
    obtain ⟨k1, v1⟩ := kv
    by_cases h : k1 = k
    · simp [lookupKV, setKV, h]
    · simp [lookupKV, setKV, h, ih]

theorem lookupKV_setKV_other {α : Type} (k k2 : String) (v : α) (l : List (String × α))
    (hne : k2 ≠ k) : lookupKV k2 (setKV k v l) = lookupKV k2 l := by
  induction l with
  | nil => simp [lookupKV, setKV, Ne.symm hne]
  | cons kv rest ih =>
    obtain ⟨k1, v1⟩ := kv
    by_cases h : k1 = k
    · subst h
      simp [lookupKV, setKV, Ne.symm hne]
    · simp [lookupKV, setKV, h, ih]

/-- C1: For every PolicyResponse returned by the provider, the policy
returned by PolicyGenerator.generate_policy (after _validate_and_fix_policy)
has severity_rates["ERROR"] = 1.0 and severity_rates["CRITICAL"] = 1.0,
regardless of the rates the provider produced. -/
theorem generate_policy_forces_error_critical (p : PolicyResponse) :
    lookupKV "ERROR" (generate_policy p).severity_rates = some 1 ∧
    lookupKV "CRITICAL" (generate_policy p).severity_rates = some 1 := by
  constructor
  · rw [show (generate_policy p).severity_rates
        = setKV "CRITICAL" 1 (setKV "ERROR" 1 p.severity_rates) from rfl]
    rw [lookupKV_setKV_other "CRITICAL" "ERROR" 1 _ (by decide)]
    exact lookupKV_setKV_same "ERROR" 1 p.severity_rates
  · exact lookupKV_setKV_same "CRITICAL" 1 _

/-- A provider response with an out-of-range DEBUG severity rate (3/2) and an
out-of-range pattern rate (3/2), as an LLM provider could produce. -/
def c4Input : PolicyResponse :=
  { global_rate := (3 : ℚ)/2
    severity_rates := [("DEBUG", (3 : ℚ)/2)]
    pattern_rates := [("abc123", (3 : ℚ)/2)]
    anomaly_boost := (1 : ℚ)/2
    reasoning := ""
    model := "test" }

/-- C4 fails on the code: a DEBUG severity rate of 3/2 survives
_validate_and_fix_policy untouched, so not every severity_rates value lies
in [0,1]. -/
theorem severity_rates_not_all_clamped :
    ¬ (∀ kv ∈ (generate_policy c4Input).severity_rates, 0 ≤ kv.2 ∧ kv.2 ≤ 1) := by
  have hlist : (generate_policy c4Input).severity_rates
      = [("DEBUG", (3 : ℚ)/2), ("ERROR", 1), ("CRITICAL", 1)] := by
    simp [generate_policy, validate_and_fix_policy, c4Input, setKV]
  intro h
  have hd := h ("DEBUG", (3 : ℚ)/2) (by rw [hlist]; exact List.mem_cons_self _ _)
  have : ((3 : ℚ)/2) ≤ 1 := hd.2
  norm_num at this

/-- C4 (amended): For every PolicyResponse returned by the provider,
global_rate lies in [0,1], every pattern_rates value lies in [0,1], and
anomaly_boost is ≥ 1.0; the severity_rates entries for ERROR and CRITICAL
are forced to 1.0, but every other severity_rates entry passes through
validation unchanged, so it is not clamped into [0,1]. -/
theorem validate_policy_clamps_global_pattern_boost (p : PolicyResponse) :
    (0 ≤ (generate_policy p).global_rate ∧ (generate_policy p).global_rate ≤ 1) ∧
    (1 ≤ (generate_policy p).anomaly_boost) ∧
    (∀ kv ∈ (generate_policy p).pattern_rates, 0 ≤ kv.2 ∧ kv.2 ≤ 1) ∧
    (∀ k : String, k ≠ "ERROR" → k ≠ "CRITICAL" →
      lookupKV k (generate_policy p).severity_rates = lookupKV k p.severity_rates) := by
  refine ⟨?_, ?_, ?_, ?_⟩
  · simp only [generate_policy, validate_and_fix_policy]
    split_ifs <;> constructor <;> linarith
  · simp only [generate_policy, validate_and_fix_policy]
    split_ifs <;> linarith
  · intro kv hkv
    simp only [generate_policy, validate_and_fix_policy, List.mem_map] at hkv
    obtain ⟨ab, _, rfl⟩ := hkv
    dsimp only
    split_ifs <;> constructor <;> linarith
  · intro k hE hC
    show lookupKV k (setKV "CRITICAL" 1 (setKV "ERROR" 1 p.severity_rates)) = _
    rw [lookupKV_setKV_other _ _ _ _ hC, lookupKV_setKV_other _ _ _ _ hE]

/-- Witness for C4 (amended) at the concrete provider response `c4Input`:
the clamped fields are in range and the DEBUG rate passes through. -/
theorem validate_policy_clamps_witness :
    (0 ≤ (generate_policy c4Input).global_rate ∧ (generate_policy c4Input).global_rate ≤ 1) ∧
    lookupKV "DEBUG" (generate_policy c4Input).severity_rates
      = lookupKV "DEBUG" c4Input.severity_rates ∧
    (∀ kv ∈ (generate_policy c4Input).pattern_rates, 0 ≤ kv.2 ∧ kv.2 ≤ 1) :=
  ⟨(validate_policy_clamps_global_pattern_boost c4Input).1,
    (validate_policy_clamps_global_pattern_boost c4Input).2.2.2 "DEBUG"
      (by decide) (by decide),
    (validate_policy_clamps_global_pattern_boost c4Input).2.2.1⟩

/-! ### A small regular-expression engine

The signature modules apply a fixed chain of Python `re.sub` calls.  Each
pattern used is a plain sequence of literals, character classes with
repetition bounds, and word-boundary assertions, so we embed exactly that
fragment: a backtracking matcher over an item sequence, with Python
semantics (leftmost match, greedy classes with backtracking, `\b` by the
word-character status of the neighbouring characters, substitution scanning
the original string left to right and resuming after each match).  The
matcher carries fuel to stay structurally recursive; the fuel supplied by
the wrappers is far above the worst-case number of steps, so it never runs
out on the inputs considered. -/

def isWordChar (c : Char) : Bool := c.isAlphanum || c = '_'

/-- Python regex whitespace class (ASCII part). -/
def isSpaceChar (c : Char) : Bool :=
  c = ' ' || c = '\t' || c = '\n' || c = '\r' || c = '\x0b' || c = '\x0c'

/-- One item of a regex pattern: a literal character, a character class
with a repetition range (greedy), or a word boundary.  `clsTry` is an
internal state of the matcher: the class is currently being tried at
exactly `k` repetitions. -/
inductive RItem where
  | lit (c : Char)
  | cls (p : Char → Bool) (lo : Nat) (hi : Option Nat)
  | clsTry (p : Char → Bool) (lo : Nat) (k : Nat)
  | bnd

def countRun (p : Char → Bool) : List Char → Nat
  | [] => 0
  | c :: rest => if p c then countRun p rest + 1 else 0

def isWordOpt : Option Char → Bool
  | none => false
  | some c => isWordChar c

def atBoundary (prev next : Option Char) : Bool := isWordOpt prev != isWordOpt next

/-- Backtracking matcher: given the pattern items, the character preceding
the current position (for `\b`), and the remaining input, return the length
of the match at this position, if any. -/
def matchSeq : Nat → List RItem → Option Char → List Char → Option Nat
  | 0, _, _, _ => none
  | fuel + 1, items, prev, s =>
    match items with
    | [] => some 0
    | .bnd :: rest => if atBoundary prev s.head? then matchSeq fuel rest prev s else none
    | .lit c :: rest =>
      match s with
      | [] => none
      | d :: srest => if d = c then (matchSeq fuel rest (some d) srest).map (· + 1) else none
    | .cls p lo hi :: rest =>
      let m := countRun p s
      let k0 := min m (hi.getD m)
      if k0 < lo then none else matchSeq fuel (.clsTry p lo k0 :: rest) prev s
    | .clsTry p lo k :: rest =>
      match matchSeq fuel rest (if k = 0 then prev else s.get? (k - 1)) (s.drop k) with
      | some n => some (k + n)
      | none => if k ≤ lo then none else matchSeq fuel (.clsTry p lo (k - 1) :: rest) prev s

/-- Fuel bound for `matchSeq`: far above the size of the backtracking tree
of the patterns used here (at most three nested unbounded classes). -/
def matchFuel (pat : List RItem) (s : List Char) : Nat :=
  ((s.length + 2) ^ 3 + 16) * (pat.length + 4) * 4

def reSubAux (pat : List RItem) (repl : List Char) :
    Nat → Option Char → List Char → List Char
  | 0, _, s => s
  | fuel + 1, prev, s =>
    match s with
    | [] => []
    | c :: rest =>
      match matchSeq (matchFuel pat s) pat prev s with
      | some (n + 1) =>
        repl ++ reSubAux pat repl fuel (s.get? n) (s.drop (n + 1))
      | _ => c :: reSubAux pat repl fuel (some c) rest

/-- Python `re.sub(pattern, repl, s)` for the pattern fragment above.  (All
patterns used match at least one character, so the zero-length-match rule
of `re.sub` never comes into play.) -/
def reSub (pat : List RItem) (repl : List Char) (s : List Char) : List Char :=
  reSubAux pat repl (s.length + 1) none s

/-- Python `str.strip()` on ASCII input. -/
def stripChars (l : List Char) : List Char :=
  ((l.dropWhile isSpaceChar).reverse.dropWhile isSpaceChar).reverse

def isHexI (c : Char) : Bool :=
  c.isDigit || ('a' ≤ c.toLower && c.toLower ≤ 'f')

def isHexL (c : Char) : Bool := c.isDigit || ('a' ≤ c && c ≤ 'f')

def isEmailLocalChar (c : Char) : Bool :=
  c.isAlphanum || c = '.' || c = '_' || c = '%' || c = '+' || c = '-'

def isEmailDomainChar (c : Char) : Bool := c.isAlphanum || c = '.' || c = '-'

def isNonSpace (c : Char) : Bool := !isSpaceChar c

/-! Patterns of sdk/python/lipservice/signature.py, in source order. -/

def patNum : List RItem := [.bnd, .cls Char.isDigit 1 none, .bnd]

def patUuid : List RItem :=
  [.cls isHexI 8 (some 8), .lit '-', .cls isHexI 4 (some 4), .lit '-',
   .cls isHexI 4 (some 4), .lit '-', .cls isHexI 4 (some 4), .lit '-',
   .cls isHexI 12 (some 12)]

def patHexId : List RItem := [.bnd, .cls isHexI 32 none, .bnd]

def patTimestampSdk : List RItem :=
  [.cls Char.isDigit 4 (some 4), .lit '-', .cls Char.isDigit 2 (some 2), .lit '-',
   .cls Char.isDigit 2 (some 2), .cls (fun c => c = 'T' || c = ' ') 1 (some 1),
   .cls Char.isDigit 2 (some 2), .lit ':', .cls Char.isDigit 2 (some 2), .lit ':',
   .cls Char.isDigit 2 (some 2)]

def patDateSdk : List RItem :=
  [.bnd, .cls Char.isDigit 4 (some 4), .lit '-', .cls Char.isDigit 2 (some 2), .lit '-',
   .cls Char.isDigit 2 (some 2), .bnd]

def patTimeSdk : List RItem :=
  [.bnd, .cls Char.isDigit 2 (some 2), .lit ':', .cls Char.isDigit 2 (some 2), .lit ':',
   .cls Char.isDigit 2 (some 2), .bnd]

def patIp : List RItem :=
  [.bnd, .cls Char.isDigit 1 (some 3), .lit '.', .cls Char.isDigit 1 (some 3), .lit '.',
   .cls Char.isDigit 1 (some 3), .lit '.', .cls Char.isDigit 1 (some 3), .bnd]

def patEmail : List RItem :=
  [.bnd, .cls isEmailLocalChar 1 none, .lit '@', .cls isEmailDomainChar 1 none,
   .lit '.', .cls Char.isAlpha 2 none, .bnd]

def patUrl : List RItem :=
  [.lit 'h', .lit 't', .lit 't', .lit 'p', .cls (fun c => c = 's') 0 (some 1),
   .lit ':', .lit '/', .lit '/', .cls isNonSpace 1 none]

def patSpaces : List RItem := [.cls isSpaceChar 1 none]

/-- Normalization chain of sdk/python/lipservice/signature.py
`compute_signature`: numbers, UUIDs, hex ids, ISO timestamps, dates, times,
IPs, emails, URLs, whitespace collapse, trim — in exactly the source order
(the generic-integer substitution comes first). -/
def sdkNormalize (message : String) : String :=
  let s1 := reSub patNum "N".data message.data
  let s2 := reSub patUuid "UUID".data s1
  let s3 := reSub patHexId "HEXID".data s2
  let s4 := reSub patTimestampSdk "TIMESTAMP".data s3
  let s5 := reSub patDateSdk "DATE".data s4
  let s6 := reSub patTimeSdk "TIME".data s5
  let s7 := reSub patIp "IP".data s6
  let s8 := reSub patEmail "EMAIL".data s7
  let s9 := reSub patUrl "URL".data s8
  let s10 := reSub patSpaces " ".data s9
  String.mk (stripChars s10)

/-! Patterns of src/engine/signature.py (the backend variant), in source
order.  There the input is lower-cased and stripped first, the number
substitution has no word boundaries, the hex-id rule wants exactly 32
characters, and file paths are also replaced. -/

def patNumAll : List RItem := [.cls Char.isDigit 1 none]

def patUuidEngine : List RItem :=
  [.cls isHexL 8 (some 8), .lit '-', .cls isHexL 4 (some 4), .lit '-',
   .cls isHexL 4 (some 4), .lit '-', .cls isHexL 4 (some 4), .lit '-',
   .cls isHexL 12 (some 12)]

def patHex32 : List RItem := [.bnd, .cls isHexL 32 (some 32), .bnd]

def patDateEngine : List RItem :=
  [.cls Char.isDigit 4 (some 4), .lit '-', .cls Char.isDigit 2 (some 2), .lit '-',
   .cls Char.isDigit 2 (some 2)]

def patTimeEngine : List RItem :=
  [.cls Char.isDigit 2 (some 2), .lit ':', .cls Char.isDigit 2 (some 2), .lit ':',
   .cls Char.isDigit 2 (some 2)]

def patWinPath : List RItem :=
  [.cls (fun c => 'a' ≤ c && c ≤ 'z') 1 (some 1), .lit ':', .lit '\\',
   .cls isNonSpace 1 none]

def patUnixPath : List RItem :=
  [.lit '/', .cls isNonSpace 1 none, .lit '/', .cls isNonSpace 1 none]

/-- Normalization chain of src/engine/signature.py `compute_signature` for
a non-empty message. -/
def engineNormalize (message : String) : String :=
  let e0 := stripChars (message.data.map Char.toLower)
  let e1 := reSub patNumAll "N".data e0
  let e2 := reSub patUuidEngine "UUID".data e1
  let e3 := reSub patHex32 "UUID".data e2
  let e4 := reSub patDateEngine "DATE".data e3
  let e5 := reSub patTimeEngine "TIME".data e4
  let e6 := reSub patIp "IP".data e5
  let e7 := reSub patWinPath "PATH".data e6
  let e8 := reSub patUnixPath "PATH".data e7
  String.mk (reSub patSpaces " ".data e8)

/-! ### MD5 (hashlib.md5, RFC 1321), over byte lists -/

def utf8Bytes (c : Char) : List Nat :=
  let n := c.toNat
  if n < 128 then [n]
  else if n < 2048 then [192 + n / 64, 128 + n % 64]
  else if n < 65536 then [224 + n / 4096, 128 + (n / 64) % 64, 128 + n % 64]
  else [240 + n / 262144, 128 + (n / 4096) % 64, 128 + (n / 64) % 64, 128 + n % 64]

/-- Python `str.encode()` (UTF-8). -/
def strBytes (s : String) : List Nat := (s.data.map utf8Bytes).flatten

def md5K : List Nat :=
  [3614090360, 3905402710, 606105819, 3250441966, 4118548399, 1200080426, 2821735955, 4249261313,
   1770035416, 2336552879, 4294925233, 2304563134, 1804603682, 4254626195, 2792965006, 1236535329,
   4129170786, 3225465664, 643717713, 3921069994, 3593408605, 38016083, 3634488961, 3889429448,
   568446438, 3275163606, 4107603335, 1163531501, 2850285829, 4243563512, 1735328473, 2368359562,
   4294588738, 2272392833, 1839030562, 4259657740, 2763975236, 1272893353, 4139469664, 3200236656,
   681279174, 3936430074, 3572445317, 76029189, 3654602809, 3873151461, 530742520, 3299628645,
   4096336452, 1126891415, 2878612391, 4237533241, 1700485571, 2399980690, 4293915773, 2240044497,
   1873313359, 4264355552, 2734768916, 1309151649, 4149444226, 3174756917, 718787259, 3951481745]

def md5S : List Nat :=
  [7, 12, 17, 22, 7, 12, 17, 22, 7, 12, 17, 22, 7, 12, 17, 22,
   5, 9, 14, 20, 5, 9, 14, 20, 5, 9, 14, 20, 5, 9, 14, 20,
   4, 11, 16, 23, 4, 11, 16, 23, 4, 11, 16, 23, 4, 11, 16, 23,
   6, 10, 15, 21, 6, 10, 15, 21, 6, 10, 15, 21, 6, 10, 15, 21]

def w32 : Nat := 4294967296

def rotl32 (x n : Nat) : Nat := ((x <<< n) % w32) ||| (x >>> (32 - n))

def md5F (i b c d : Nat) : Nat :=
  if i < 16 then (b &&& c) ||| ((b ^^^ 4294967295) &&& d)
  else if i < 32 then (d &&& b) ||| ((d ^^^ 4294967295) &&& c)
  else if i < 48 then b ^^^ c ^^^ d
  else c ^^^ (b ||| (d ^^^ 4294967295))

def md5G (i : Nat) : Nat :=
  if i < 16 then i
  else if i < 32 then (5 * i + 1) % 16
  else if i < 48 then (3 * i + 5) % 16
  else (7 * i) % 16

def md5Round (M : List Nat) (st : Nat × Nat × Nat × Nat) (i : Nat) : Nat × Nat × Nat × Nat :=
  let a := st.1
  let b := st.2.1
  let c := st.2.2.1
  let d := st.2.2.2
  let t := (a + md5F i b c d + (md5K.get? i).getD 0 + (M.get? (md5G i)).getD 0) % w32
  (d, (b + rotl32 t ((md5S.get? i).getD 0)) % w32, b, c)

def md5Block (st : Nat × Nat × Nat × Nat) (M : List Nat) : Nat × Nat × Nat × Nat :=
  let r := (List.range 64).foldl (md5Round M) st
  ((st.1 + r.1) % w32, (st.2.1 + r.2.1) % w32,
   (st.2.2.1 + r.2.2.1) % w32, (st.2.2.2 + r.2.2.2) % w32)

def leBytes : Nat → Nat → List Nat
  | 0, _ => []
  | k + 1, n => n % 256 :: leBytes k (n / 256)

def md5Pad (msg : List Nat) : List Nat :=
  let len := msg.length
  let padLen := (56 + 64 - (len + 1) % 64) % 64
  msg ++ [128] ++ List.replicate padLen 0 ++ leBytes 8 (8 * len)

def toWords : List Nat → List Nat
  | b0 :: b1 :: b2 :: b3 :: rest =>
    (b0 + 256 * (b1 + 256 * (b2 + 256 * b3))) :: toWords rest
  | _ => []

def md5Loop : Nat × Nat × Nat × Nat → List Nat → Nat × Nat × Nat × Nat
  | st, w0 :: w1 :: w2 :: w3 :: w4 :: w5 :: w6 :: w7 ::
        w8 :: w9 :: w10 :: w11 :: w12 :: w13 :: w14 :: w15 :: rest =>
    md5Loop (md5Block st [w0, w1, w2, w3, w4, w5, w6, w7,
                          w8, w9, w10, w11, w12, w13, w14, w15]) rest
  | st, _ => st

def hexDigit (n : Nat) : Char := if n < 10 then Char.ofNat (48 + n) else Char.ofNat (87 + n)

def byteHex (b : Nat) : List Char := [hexDigit (b / 16), hexDigit (b % 16)]

def wordLEBytes (w : Nat) : List Nat :=
  [w % 256, (w / 256) % 256, (w / 65536) % 256, (w / 16777216) % 256]

/-- hashlib.md5(msg).hexdigest() on a byte list. -/
def md5Hex (msg : List Nat) : String :=
  let r := md5Loop (1732584193, 4023233417, 2562383102, 271733878) (toWords (md5Pad msg))
  String.mk (((wordLEBytes r.1 ++ wordLEBytes r.2.1 ++
    wordLEBytes r.2.2.1 ++ wordLEBytes r.2.2.2).map byteHex).flatten)

/-- sdk/python/lipservice/signature.py `compute_signature`. -/
def compute_signature (message : String) : String :=
  md5Hex (strBytes (sdkNormalize message))

/-- src/engine/signature.py `compute_signature` (the backend variant). -/
def engine_compute_signature (message : String) : String :=
  if message = "" then md5Hex (strBytes "empty")
  else md5Hex (strBytes (engineNormalize message))

/-! ### SDK data model and adaptive sampler
(sdk/python/lipservice/models.py, sdk/python/lipservice/sampler.py)

The sampler's mutable state becomes explicit state passing.  The outcome of
the one `random.random()` draw a decision makes, the wall clock, the policy
fetched by the background refresh and the result of the pattern-report call
are inputs, since the claims quantify over them. -/

/-- Python `str.upper()` on ASCII input, written over the character list so
that it evaluates inside the kernel. -/
def upperStr (s : String) : String := String.mk (s.data.map Char.toUpper)

structure SamplingPolicy where
  version : Nat
  global_rate : ℚ
  severity_rates : List (String × ℚ)
  pattern_rates : List (String × ℚ)
  anomaly_boost : ℚ
deriving DecidableEq

/-- `SamplingPolicy.get_severity_rate` from models.py. -/
def get_severity_rate (p : SamplingPolicy) (severity : String) : ℚ :=
  (lookupKV (upperStr severity) p.severity_rates).getD p.global_rate

/-- `SamplingPolicy.get_pattern_rate` from models.py. -/
def get_pattern_rate (p : SamplingPolicy) (signature : String) : Option ℚ :=
  lookupKV signature p.pattern_rates

/-- One value of the sampler's `pattern_stats` dict (see
`_default_pattern_stats` in sampler.py). -/
structure PatternEntry where
  count : Nat
  message_sample : String
  severity_distribution : List (String × Nat)
  first_seen : Nat
  last_seen : Nat
deriving DecidableEq

def defaultPatternEntry (now : Nat) : PatternEntry :=
  { count := 0, message_sample := "", severity_distribution := [],
    first_seen := now, last_seen := now }

structure SamplerState where
  policy : Option SamplingPolicy
  pattern_stats : List (String × PatternEntry)
  max_pattern_cache_size : Nat
deriving DecidableEq

def ALWAYS_SAMPLE_SEVERITIES : List String := ["ERROR", "CRITICAL", "FATAL"]

/-- `AdaptiveSampler._track_pattern`: a new signature is only admitted while
the table is below `max_pattern_cache_size`; an existing entry is always
updated (count, last_seen, first message sample, severity histogram). -/
def track_pattern (signature message severity : String) (now : Nat)
    (st : SamplerState) : SamplerState :=
  match lookupKV signature st.pattern_stats with
  | some e =>
    let e2 : PatternEntry :=
      { count := e.count + 1
        message_sample := if e.message_sample = "" then message.take 200 else e.message_sample
        severity_distribution := incKV severity e.severity_distribution
        first_seen := e.first_seen
        last_seen := now }
    { st with pattern_stats := setKV signature e2 st.pattern_stats }
  | none =>
    if st.pattern_stats.length < st.max_pattern_cache_size then
      let e := defaultPatternEntry now
      let e2 : PatternEntry :=
        { count := e.count + 1
          message_sample := if e.message_sample = "" then message.take 200 else e.message_sample
          severity_distribution := incKV severity e.severity_distribution
          first_seen := e.first_seen
          last_seen := now }
      { st with pattern_stats := setKV signature e2 st.pattern_stats }
    else st

/-- `AdaptiveSampler.should_sample`: returns the (keep, signature) pair and
the sampler state after the pattern-statistics update.  `r` is the value of
the one `random.random()` draw the decision may make. -/
def should_sample (message severity : String) (r : ℚ) (now : Nat)
    (st : SamplerState) : (Bool × String) × SamplerState :=
  let severity_upper := upperStr severity
  if severity_upper ∈ ALWAYS_SAMPLE_SEVERITIES then
    let signature := compute_signature message
    ((true, signature), track_pattern signature message severity_upper now st)
  else
    let signature := compute_signature message
    let st2 := track_pattern signature message severity_upper now st
    match st.policy with
    | none => ((true, signature), st2)
    | some p =>
      match get_pattern_rate p signature with
      | some pr => ((decide (r < pr), signature), st2)
      | none => ((decide (r < get_severity_rate p severity_upper), signature), st2)

/-- Outcome of one `client.report_patterns` call: confirmed success,
a False return, or a raised exception (caught by the sampler). -/
inductive ReportOutcome where
  | success
  | failure
  | raised

/-- `AdaptiveSampler._report_patterns`: the stats table is cleared only
when the sink confirms success; on failure or exception it is untouched. -/
def report_patterns (outcome : ReportOutcome) (st : SamplerState) : SamplerState :=
  if st.pattern_stats.isEmpty then st
  else
    match outcome with
    | .success => { st with pattern_stats := [] }
    | .failure => st
    | .raised => st

/-- `AdaptiveSampler._refresh_policy`: a fetched policy replaces the current
one; a None result or an exception leaves it unchanged. -/
def refresh_policy (fetched : Option SamplingPolicy) (st : SamplerState) : SamplerState :=
  match fetched with
  | some p => { st with policy := some p }
  | none => st

/-- The operations that touch the sampler's state. -/
inductive SamplerOp where
  | observe (message severity : String) (r : ℚ) (now : Nat)
  | report (outcome : ReportOutcome)
  | refresh (fetched : Option SamplingPolicy)

def samplerStep (st : SamplerState) : SamplerOp → SamplerState
  | .observe m sev r now => (should_sample m sev r now st).2
  | .report oc => report_patterns oc st
  | .refresh f => refresh_policy f st

/-- C2: For every message and every severity whose upper-cased form is in
{ERROR, CRITICAL, FATAL}, AdaptiveSampler.should_sample returns
keep = true, for every policy state (including no policy loaded) and every
outcome of the random draw. -/
theorem should_sample_always_keeps_errors (st : SamplerState)
    (message severity : String) (r : ℚ) (now : Nat)
    (h : upperStr severity ∈ ALWAYS_SAMPLE_SEVERITIES) :
    (should_sample message severity r now st).1.1 = true := by
  simp [should_sample, h]

/-- Witness for C2 at severity "error" (no policy loaded, arbitrary draw). -/
theorem should_sample_always_keeps_errors_witness :
    (upperStr "error" ∈ ALWAYS_SAMPLE_SEVERITIES) ∧
    (should_sample "Database timeout" "error" ((1 : ℚ)/2) 0
      ⟨none, [], 10000⟩).1.1 = true :=
  ⟨by decide,
   should_sample_always_keeps_errors ⟨none, [], 10000⟩ "Database timeout" "error"
     ((1 : ℚ)/2) 0 (by decide)⟩

/-- C5: For severities outside {ERROR, CRITICAL, FATAL}, with a policy
loaded whose pattern_rates contains the message's signature, should_sample
decides keep by r < pattern_rate and never consults the severity rate; with
a pattern rate of 0.0 the decision is keep = false for every draw r ≥ 0,
even when the severity rate is 1.0; and with severity_rates[INFO] = 0.0 and
no pattern rate, every INFO event yields keep = false. -/
theorem should_sample_pattern_overrides_severity :
    (∀ (st : SamplerState) (p : SamplingPolicy) (message severity : String)
        (r ρ : ℚ) (now : Nat),
      st.policy = some p →
      upperStr severity ∉ ALWAYS_SAMPLE_SEVERITIES →
      get_pattern_rate p (compute_signature message) = some ρ →
      (should_sample message severity r now st).1.1 = decide (r < ρ)) ∧
    (∀ (st : SamplerState) (p : SamplingPolicy) (message severity : String)
        (r : ℚ) (now : Nat),
      st.policy = some p →
      upperStr severity ∉ ALWAYS_SAMPLE_SEVERITIES →
      get_pattern_rate p (compute_signature message) = some 0 →
      0 ≤ r →
      (should_sample message severity r now st).1.1 = false) ∧
    (∀ (st : SamplerState) (p : SamplingPolicy) (message severity : String)
        (r : ℚ) (now : Nat),
      st.policy = some p →
      upperStr severity = "INFO" →
      get_pattern_rate p (compute_signature message) = none →
      lookupKV "INFO" p.severity_rates = some 0 →
      0 ≤ r →
      (should_sample message severity r now st).1.1 = false) := by
  have part1 : ∀ (st : SamplerState) (p : SamplingPolicy) (message severity : String)
      (r ρ : ℚ) (now : Nat),
      st.policy = some p →
      upperStr severity ∉ ALWAYS_SAMPLE_SEVERITIES →
      get_pattern_rate p (compute_signature message) = some ρ →
      (should_sample message severity r now st).1.1 = decide (r < ρ) := by
    intro st p message severity r ρ now hpol hsev hrate
    simp [should_sample, hsev, hpol, hrate]
  refine ⟨part1, ?_, ?_⟩
  · intro st p message severity r now hpol hsev hrate hr
    rw [part1 st p message severity r 0 now hpol hsev hrate]
    exact decide_eq_false (not_lt.mpr hr)
  · intro st p message severity r now hpol hsev hrate hlook hr
    have hmem : upperStr severity ∉ ALWAYS_SAMPLE_SEVERITIES := by
      rw [hsev]; decide
    have hrest : get_severity_rate p (upperStr severity) = 0 := by
      rw [get_severity_rate, hsev]
      rw [show (upperStr "INFO") = "INFO" from by decide, hlook]
      rfl
    simp [should_sample, hmem, hpol, hrate, hrest, not_lt.mpr hr]

/-- Witness for C5: a policy with pattern rate 0.0 for the signature of
"User 123 logged in" (whose INFO severity rate is 1.0) drops that event at
draw 1/2, and a policy with severity_rates[INFO] = 0.0 and no pattern rates
drops an INFO event at draw 1/2. -/
theorem should_sample_pattern_overrides_severity_witness :
    (should_sample "User 123 logged in" "info" ((1 : ℚ)/2) 0
      ⟨some { version := 1, global_rate := 1,
              severity_rates := [("INFO", 1)],
              pattern_rates := [(compute_signature "User 123 logged in", 0)],
              anomaly_boost := 1 }, [], 10000⟩).1.1 = false ∧
    (should_sample "Database timeout" "info" ((1 : ℚ)/2) 0
      ⟨some { version := 1, global_rate := 1,
              severity_rates := [("INFO", 0)],
              pattern_rates := [],
              anomaly_boost := 1 }, [], 10000⟩).1.1 = false :=
  ⟨should_sample_pattern_overrides_severity.2.1 _ _ "User 123 logged in" "info"
      ((1 : ℚ)/2) 0 rfl (by decide)
      (by simp [get_pattern_rate, lookupKV]) (by norm_num),
   should_sample_pattern_overrides_severity.2.2 _ _ "Database timeout" "info"
      ((1 : ℚ)/2) 0 rfl (by decide) rfl (by simp [lookupKV]) (by norm_num)⟩

/-- C8: If AdaptiveSampler._report_patterns reports and the sink call fails
(returns failure or raises), the pattern_stats table is left entirely
unchanged, available for retry on the next tick; the table is cleared only
after the sink confirms success. -/
theorem report_patterns_at_least_once (st : SamplerState) :
    report_patterns .failure st = st ∧
    report_patterns .raised st = st ∧
    (report_patterns .success st).pattern_stats = [] := by
  refine ⟨?_, ?_, ?_⟩ <;>
    · rw [report_patterns]
      rcases hst : st.pattern_stats with _ | ⟨kv, rest⟩ <;> simp_all

theorem length_setKV_of_mem {α : Type} (k : String) (v e : α) (l : List (String × α))
    (h : lookupKV k l = some e) : (setKV k v l).length = l.length := by
  induction l with
  | nil => simp [lookupKV] at h
  | cons kv rest ih =>
    obtain ⟨k1, v1⟩ := kv
    by_cases hk : k1 = k
    · simp [setKV, hk]
    · simp only [lookupKV, if_neg hk] at h
      simp [setKV, hk, ih h]

theorem length_setKV_of_new {α : Type} (k : String) (v : α) (l : List (String × α))
    (h : lookupKV k l = none) : (setKV k v l).length = l.length + 1 := by
  induction l with
  | nil => simp [setKV]
  | cons kv rest ih =>
    obtain ⟨k1, v1⟩ := kv
    by_cases hk : k1 = k
    · simp [lookupKV, hk] at h
    · simp only [lookupKV, if_neg hk] at h
      simp [setKV, hk, ih h]

theorem track_pattern_max (signature message severity : String) (now : Nat)
    (st : SamplerState) :
    (track_pattern signature message severity now st).max_pattern_cache_size
      = st.max_pattern_cache_size := by
  rw [track_pattern]
  rcases lookupKV signature st.pattern_stats with _ | e
  · dsimp only
    split <;> rfl
  · rfl

theorem should_sample_state (message severity : String) (r : ℚ) (now : Nat)
    (st : SamplerState) :
    (should_sample message severity r now st).2
      = track_pattern (compute_signature message) message (upperStr severity) now st := by
  rcases hp : st.policy with _ | p
  · by_cases h : upperStr severity ∈ ALWAYS_SAMPLE_SEVERITIES <;>
      simp [should_sample, h, hp]
  · rcases hr : get_pattern_rate p (compute_signature message) with _ | pr <;>
      by_cases h : upperStr severity ∈ ALWAYS_SAMPLE_SEVERITIES <;>
      simp [should_sample, h, hp, hr]

theorem track_pattern_length (signature message severity : String) (now : Nat)
    (st : SamplerState) (h : st.pattern_stats.length ≤ st.max_pattern_cache_size) :
    (track_pattern signature message severity now st).pattern_stats.length
      ≤ st.max_pattern_cache_size := by
  rw [track_pattern]
  rcases he : lookupKV signature st.pattern_stats with _ | e
  · dsimp only
    split
    · dsimp only
      rw [length_setKV_of_new _ _ _ he]
      omega
    · exact h
  · dsimp only
    rw [length_setKV_of_mem _ _ e _ he]
    exact h

/-- C6: The number of distinct signatures in the sampler's pattern_stats
table never exceeds max_pattern_cache_size: every operation of the sampler
preserves this bound; when the bound is reached, a call to should_sample
with a new signature leaves the state unchanged, while a call with an
already-tracked signature still increments its count and severity
distribution and updates last_seen. -/
theorem pattern_stats_bounded :
    (∀ (st : SamplerState) (op : SamplerOp),
      st.pattern_stats.length ≤ st.max_pattern_cache_size →
      (samplerStep st op).pattern_stats.length
        ≤ (samplerStep st op).max_pattern_cache_size) ∧
    (∀ (st : SamplerState) (message severity : String) (r : ℚ) (now : Nat),
      st.pattern_stats.length = st.max_pattern_cache_size →
      lookupKV (compute_signature message) st.pattern_stats = none →
      (should_sample message severity r now st).2 = st) ∧
    (∀ (st : SamplerState) (message severity : String) (r : ℚ) (now : Nat)
        (e : PatternEntry),
      lookupKV (compute_signature message) st.pattern_stats = some e →
      lookupKV (compute_signature message)
          (should_sample message severity r now st).2.pattern_stats
        = some { count := e.count + 1
                 message_sample :=
                   if e.message_sample = "" then message.take 200 else e.message_sample
                 severity_distribution :=
                   incKV (upperStr severity) e.severity_distribution
                 first_seen := e.first_seen
                 last_seen := now }) := by
  refine ⟨?_, ?_, ?_⟩
  · intro st op h
    cases op with
    | observe m sev r now =>
      rw [samplerStep, should_sample_state, track_pattern_max]
      exact track_pattern_length _ _ _ _ _ h
    | report oc =>
      rw [samplerStep, report_patterns.eq_def]
      split
      · exact h
      · cases oc
        · simp
        · simpa using h
        · simpa using h
    | refresh f =>
      rw [samplerStep, refresh_policy.eq_def]
      cases f <;> simpa using h
  · intro st message severity r now hlen hnone
    rw [should_sample_state, track_pattern, hnone]
    simp [hlen]
  · intro st message severity r now e he
    rw [should_sample_state, track_pattern, he]
    exact lookupKV_setKV_same _ _ _

/-- A full cache of size 1 holding the pattern of "User 123 logged in". -/
def c6Entry : PatternEntry :=
  { count := 3, message_sample := "User 123 logged in",
    severity_distribution := [("INFO", 3)], first_seen := 5, last_seen := 5 }

def c6State : SamplerState :=
  { policy := none
    pattern_stats := [(compute_signature "User 123 logged in", c6Entry)]
    max_pattern_cache_size := 1 }

set_option maxRecDepth 400000 in
/-- Witness for C6 at a cache at its bound (size 1): an observation of a new
pattern ("Database timeout") leaves the state unchanged, while "User 456
logged in" — a different message with the same tracked signature — still
updates count, severity distribution and last_seen. -/
theorem pattern_stats_bounded_witness :
    ((samplerStep c6State (.observe "Database timeout" "info" ((1 : ℚ)/2) 7)).pattern_stats.length
        ≤ (samplerStep c6State (.observe "Database timeout" "info" ((1 : ℚ)/2) 7)).max_pattern_cache_size) ∧
    (should_sample "Database timeout" "info" ((1 : ℚ)/2) 7 c6State).2 = c6State ∧
    lookupKV (compute_signature "User 456 logged in")
        (should_sample "User 456 logged in" "info" ((1 : ℚ)/2) 7 c6State).2.pattern_stats
      = some { count := c6Entry.count + 1
               message_sample :=
                 if c6Entry.message_sample = "" then ("User 456 logged in").take 200
                 else c6Entry.message_sample
               severity_distribution :=
                 incKV (upperStr "info") c6Entry.severity_distribution
               first_seen := c6Entry.first_seen
               last_seen := 7 } :=
  ⟨pattern_stats_bounded.1 c6State (.observe "Database timeout" "info" ((1 : ℚ)/2) 7)
      (by decide),
   pattern_stats_bounded.2.1 c6State "Database timeout" "info" ((1 : ℚ)/2) 7
      (by decide) (by decide),
   pattern_stats_bounded.2.2 c6State "User 456 logged in" "info" ((1 : ℚ)/2) 7 c6Entry
      (by decide)⟩

set_option maxRecDepth 1000000 in
/-- C3: the claimed substitution order (UUID before the generic integer
rule) is not what the code does: both signature modules run the integer
substitution first, so the all-digit groups of a UUID are rewritten to "N"
before the UUID rule can see them, and two messages that differ only in a
UUID get different signatures.  The inputs below are the ones of the SDK's
own regression test test_compute_signature_normalizes_uuids, which the code
therefore fails; the first two conjuncts exhibit the normalized forms, the
last two evaluate both signature functions at the failing input. -/
theorem compute_signature_uuid_invariance_fails :
    sdkNormalize "Request a1b2c3d4-1234-5678-9abc-123456789012 processed"
      = "Request a1b2c3d4-N-N-9abc-N processed" ∧
    sdkNormalize "Request f9e8d7c6-5678-1234-5678-987654321098 processed"
      = "Request f9e8d7c6-N-N-N-N processed" ∧
    compute_signature "Request a1b2c3d4-1234-5678-9abc-123456789012 processed"
      ≠ compute_signature "Request f9e8d7c6-5678-1234-5678-987654321098 processed" ∧
    engine_compute_signature "Request a1b2c3d4-1234-5678-9abc-123456789012 processed"
      ≠ engine_compute_signature "Request f9e8d7c6-5678-1234-5678-987654321098 processed" :=
  ⟨by decide, by decide, by decide, by decide⟩

/-! ### Pattern analyzer (src/engine/pattern_analyzer.py)

The TF-IDF vectorizer and the DBSCAN `fit_predict` call are external
library calls; their outcome is modelled as an input: `some labels` is the
label array DBSCAN returned (−1 marking noise/outliers), `none` means the
vectorize/cluster step raised and the code fell back to the single trivial
cluster.  Python's `set(labels)` iteration is modelled in first-occurrence
order; the final result is sorted, so this only affects the order of
equal-count clusters. -/

structure LogEntry where
  message : String
  severity : String
  timestamp : Nat
  service_name : String
deriving DecidableEq

structure PatternCluster where
  cluster_id : Int
  size : Nat
  total_count : Nat
  representative_message : String
  signature : String
  severity_distribution : List (String × Nat)
  first_seen : Nat
  last_seen : Nat
deriving DecidableEq

structure PatternAnalysis where
  clusters : List PatternCluster
  noise_count : Nat
  total_unique_patterns : Nat
  total_logs : Nat
deriving DecidableEq

/-- One value of the `_group_by_signature` dict: the logs of a signature
and their severity histogram. -/
structure SigGroup where
  logs : List LogEntry
  severity_dist : List (String × Nat)
deriving DecidableEq

/-- `PatternAnalyzer._group_by_signature`. -/
def group_by_signature (logs : List LogEntry) : List (String × SigGroup) :=
  logs.foldl
    (fun groups log =>
      let sig := engine_compute_signature log.message
      let g := (lookupKV sig groups).getD { logs := [], severity_dist := [] }
      setKV sig
        { logs := g.logs ++ [log], severity_dist := incKV log.severity g.severity_dist }
        groups)
    []

def emptyGroup : SigGroup := { logs := [], severity_dist := [] }

/-- `PatternAnalyzer._build_cluster`.  `max(signatures, key=...)` keeps the
first of several maxima, `min`/`max` over the timestamps of a nonempty log
list; for the empty signature list (unreachable from `analyze`) the
defaults are 0 and "". -/
def build_cluster (cluster_id : Int) (signatures : List String)
    (groups : List (String × SigGroup)) : PatternCluster :=
  let all_logs := signatures.foldl
    (fun acc sig => acc ++ ((lookupKV sig groups).getD emptyGroup).logs) []
  let severity_dist := signatures.foldl
    (fun acc sig =>
      ((lookupKV sig groups).getD emptyGroup).severity_dist.foldl
        (fun a kv => setKV kv.1 ((lookupKV kv.1 a).getD 0 + kv.2) a) acc)
    []
  let nlogs := fun sig => ((lookupKV sig groups).getD emptyGroup).logs.length
  let representative :=
    match signatures with
    | [] => ""
    | s0 :: rest => rest.foldl (fun best sig => if nlogs best < nlogs sig then sig else best) s0
  let rep_message :=
    (((lookupKV representative groups).getD emptyGroup).logs.head?.map (·.message)).getD ""
  let first_seen :=
    match all_logs with
    | [] => 0
    | l0 :: rest => rest.foldl (fun m lg => min m lg.timestamp) l0.timestamp
  let last_seen :=
    match all_logs with
    | [] => 0
    | l0 :: rest => rest.foldl (fun m lg => max m lg.timestamp) l0.timestamp
  { cluster_id := cluster_id
    size := signatures.length
    total_count := all_logs.length
    representative_message := rep_message
    signature := representative
    severity_distribution := severity_dist
    first_seen := first_seen
    last_seen := last_seen }

/-- `PatternAnalyzer._create_single_cluster`. -/
def create_single_cluster (groups : List (String × SigGroup)) : List PatternCluster :=
  [build_cluster 0 (groups.map (·.1)) groups]

/-- First-occurrence deduplication, the model of `set(labels)`. -/
def dedupAux (seen : List Int) : List Int → List Int
  | [] => []
  | x :: xs => if x ∈ seen then dedupAux seen xs else x :: dedupAux (x :: seen) xs

def dedupList (l : List Int) : List Int := dedupAux [] l

/-- The descending-total-count order used by
`sorted(clusters, key=lambda c: c.total_count, reverse=True)`. -/
def clusterGE (a b : PatternCluster) : Prop := b.total_count ≤ a.total_count

instance : DecidableRel clusterGE := fun a b => Nat.decLe b.total_count a.total_count

instance : IsTotal PatternCluster clusterGE :=
  ⟨fun a b => le_total b.total_count a.total_count⟩

instance : IsTrans PatternCluster clusterGE :=
  ⟨fun _ _ _ hab hbc => le_trans hbc hab⟩

/-- Python's `sorted` with `reverse=True` is a stable descending sort,
which is exactly insertion sort with `clusterGE`. -/
def sortClusters (cs : List PatternCluster) : List PatternCluster :=
  List.insertionSort clusterGE cs

/-- `PatternAnalyzer._cluster_patterns`, with the DBSCAN outcome as input. -/
def cluster_patterns (labelsOpt : Option (List Int))
    (groups : List (String × SigGroup)) : List PatternCluster :=
  if groups.length < 2 then create_single_cluster groups
  else
    match labelsOpt with
    | none => create_single_cluster groups
    | some labels =>
      let sigs := groups.map (·.1)
      let pairs := sigs.zip labels
      let clusters := (dedupList labels).map fun lbl =>
        build_cluster lbl ((pairs.filter (fun sl => sl.2 == lbl)).map (·.1)) groups
      sortClusters clusters

/-- `PatternAnalyzer.analyze`. -/
def pattern_analyze (labelsOpt : Option (List Int)) (logs : List LogEntry) :
    PatternAnalysis :=
  if logs.isEmpty then
    { clusters := [], noise_count := 0, total_unique_patterns := 0, total_logs := 0 }
  else
    let groups := group_by_signature logs
    if groups.isEmpty then
      { clusters := [], noise_count := 0, total_unique_patterns := 0,
        total_logs := logs.length }
    else
      let clusters := cluster_patterns labelsOpt groups
      { clusters := clusters
        noise_count := (clusters.filter (fun c => c.cluster_id == -1)).length
        total_unique_patterns := groups.length
        total_logs := logs.length }

/-! ### Log analyzer (src/engine/analyzer.py, src/engine/anomaly_detector.py)

`detected_at` (wall clock) and the human-readable `message` string of an
anomaly are not modelled; no claim mentions them. -/

structure Anomaly where
  pattern_signature : String
  anomaly_type : String
  severity : String
  current_value : ℚ
  baseline_value : ℚ
  confidence : ℚ
deriving DecidableEq

/-- `AnomalyDetector.is_new_pattern`. -/
def is_new_pattern (pattern_signature : String) (known_signatures : List String) : Bool :=
  !(known_signatures.contains pattern_signature)

/-- `LogAnalyzer._detect_new_patterns`. -/
def detect_new_patterns (pa : PatternAnalysis) (known_signatures : List String) :
    List Anomaly :=
  pa.clusters.filterMap fun c =>
    if is_new_pattern c.signature known_signatures then
      some { pattern_signature := c.signature, anomaly_type := "new_pattern",
             severity := "medium", current_value := (c.total_count : ℚ),
             baseline_value := 0, confidence := 1 }
    else none

/-- `LogAnalyzer._detect_error_surges`.  Float literals 0.1, 0.2, 0.05 and
the float division become exact rationals (`mkRat a b` is `a / b`). -/
def detect_error_surges (logs : List LogEntry) : List Anomaly :=
  let error_logs := logs.filter fun l => l.severity == "ERROR" || l.severity == "CRITICAL"
  if error_logs.isEmpty then []
  else
    let error_rate := mkRat error_logs.length logs.length
    if error_rate > mkRat 1 10 then
      [{ pattern_signature := "error_rate", anomaly_type := "error_surge",
         severity := if error_rate > mkRat 1 5 then "high" else "medium",
         current_value := error_rate, baseline_value := mkRat 1 20,
         confidence := min (error_rate * 5) 1 }]
    else []

/-- `LogAnalyzer._detect_anomalies`: new-pattern anomalies first, then
error surges. -/
def detect_anomalies (pa : PatternAnalysis) (logs : List LogEntry)
    (known_signatures : List String) : List Anomaly :=
  detect_new_patterns pa known_signatures ++ detect_error_surges logs

/-- The summary dict of `LogAnalyzer._generate_summary` (top_patterns
entries are (message, count, signature) triples). -/
structure Summary where
  total_logs : Nat
  unique_patterns : Nat
  clusters_found : Nat
  anomalies_detected : Nat
  high_severity_anomalies : Nat
  severity_distribution : List (String × Nat)
  error_rate : ℚ
  top_patterns : List (String × Nat × String)
deriving DecidableEq

/-- `LogAnalyzer._generate_summary`: note error_rate only counts severity
exactly "ERROR". -/
def generate_summary (pa : PatternAnalysis) (anomalies : List Anomaly)
    (logs : List LogEntry) : Summary :=
  let severity_counts := logs.foldl
    (fun acc log => setKV log.severity ((lookupKV log.severity acc).getD 0 + 1) acc) []
  { total_logs := logs.length
    unique_patterns := pa.total_unique_patterns
    clusters_found := pa.clusters.length
    anomalies_detected := anomalies.length
    high_severity_anomalies := (anomalies.filter (fun a => a.severity == "high")).length
    severity_distribution := severity_counts
    error_rate :=
      if logs.isEmpty then 0
      else mkRat ((lookupKV "ERROR" severity_counts).getD 0) logs.length
    top_patterns :=
      ((sortClusters pa.clusters).take 5).map fun c =>
        (c.representative_message, c.total_count, c.signature) }

def emptySummary : Summary :=
  { total_logs := 0, unique_patterns := 0, clusters_found := 0,
    anomalies_detected := 0, high_severity_anomalies := 0,
    severity_distribution := [], error_rate := 0, top_patterns := [] }

structure AnalysisResult where
  pattern_analysis : PatternAnalysis
  anomalies : List Anomaly
  summary : Summary
deriving DecidableEq

/-- `LogAnalyzer.analyze`. -/
def log_analyze (labelsOpt : Option (List Int)) (logs : List LogEntry)
    (known_signatures : List String) : AnalysisResult :=
  if logs.isEmpty then
    { pattern_analysis :=
        { clusters := [], noise_count := 0, total_unique_patterns := 0, total_logs := 0 }
      anomalies := []
      summary := emptySummary }
  else
    let pa := pattern_analyze labelsOpt logs
    let anomalies := detect_anomalies pa logs known_signatures
    { pattern_analysis := pa, anomalies := anomalies,
      summary := generate_summary pa anomalies logs }

theorem log_analyze_anomalies_eq (labelsOpt : Option (List Int)) (logs : List LogEntry)
    (known : List String) (h : logs ≠ []) :
    (log_analyze labelsOpt logs known).anomalies
      = detect_new_patterns (pattern_analyze labelsOpt logs) known
        ++ detect_error_surges logs := by
  cases logs with
  | nil => exact absurd rfl h
  | cons a l => rfl

theorem log_analyze_summary_eq (labelsOpt : Option (List Int)) (logs : List LogEntry)
    (known : List String) (h : logs ≠ []) :
    (log_analyze labelsOpt logs known).summary
      = generate_summary (pattern_analyze labelsOpt logs)
          (detect_anomalies (pattern_analyze labelsOpt logs) logs known) logs := by
  cases logs with
  | nil => exact absurd rfl h
  | cons a l => rfl

theorem detect_new_patterns_type (pa : PatternAnalysis) (known : List String)
    (a : Anomaly) (ha : a ∈ detect_new_patterns pa known) :
    a.anomaly_type = "new_pattern" := by
  simp only [detect_new_patterns, List.mem_filterMap] at ha
  obtain ⟨c, -, hc⟩ := ha
  by_cases h : is_new_pattern c.signature known <;> simp [h] at hc
  rw [← hc]

theorem detect_error_surges_of_surge (logs : List LogEntry)
    (hrate : mkRat (logs.filter fun l =>
        l.severity == "ERROR" || l.severity == "CRITICAL").length logs.length
      > mkRat 1 10) :
    detect_error_surges logs
      = [{ pattern_signature := "error_rate", anomaly_type := "error_surge",
           severity :=
             if mkRat (logs.filter fun l =>
                 l.severity == "ERROR" || l.severity == "CRITICAL").length logs.length
               > mkRat 1 5 then "high" else "medium",
           current_value := mkRat (logs.filter fun l =>
             l.severity == "ERROR" || l.severity == "CRITICAL").length logs.length,
           baseline_value := mkRat 1 20,
           confidence := min ((mkRat (logs.filter fun l =>
             l.severity == "ERROR" || l.severity == "CRITICAL").length logs.length) * 5) 1 }] := by
  have hne : (logs.filter fun l =>
      l.severity == "ERROR" || l.severity == "CRITICAL").isEmpty = false := by
    cases hl : logs.filter fun l => l.severity == "ERROR" || l.severity == "CRITICAL" with
    | nil =>
      rw [hl] at hrate
      simp only [List.length_nil, Nat.cast_zero, Rat.zero_mkRat] at hrate
      exact absurd hrate (by decide)
    | cons x xs => rfl
  rw [detect_error_surges]
  simp only [hne, Bool.false_eq_true, if_false, if_pos hrate]

theorem detect_error_surges_of_quiet (logs : List LogEntry)
    (hrate : mkRat (logs.filter fun l =>
        l.severity == "ERROR" || l.severity == "CRITICAL").length logs.length
      ≤ mkRat 1 10) :
    detect_error_surges logs = [] := by
  rw [detect_error_surges]
  cases hne : (logs.filter fun l =>
      l.severity == "ERROR" || l.severity == "CRITICAL").isEmpty
  · simp only [Bool.false_eq_true, if_false]
    rw [if_neg (not_lt.mpr hrate)]
  · simp only [if_true]

/-- C7 (amended): For every non-empty batch of logs (and every DBSCAN
outcome and known-signature set), if the count of ERROR/CRITICAL logs over
the total count is STRICTLY greater than 0.1, LogAnalyzer.analyze produces
an error-surge anomaly, high when the ratio exceeds 0.2 and medium
otherwise; if the ratio is less than or equal to 0.1 — including exactly
0.1 — it produces no error-surge anomaly. -/
theorem error_surge_strict_threshold (labelsOpt : Option (List Int))
    (known : List String) (logs : List LogEntry) (h : logs ≠ []) :
    (mkRat (logs.filter fun l =>
        l.severity == "ERROR" || l.severity == "CRITICAL").length logs.length
       > mkRat 1 10 →
      ∃ a ∈ (log_analyze labelsOpt logs known).anomalies,
        a.anomaly_type = "error_surge" ∧
        a.severity = if mkRat (logs.filter fun l =>
            l.severity == "ERROR" || l.severity == "CRITICAL").length logs.length
          > mkRat 1 5 then "high" else "medium") ∧
    (mkRat (logs.filter fun l =>
        l.severity == "ERROR" || l.severity == "CRITICAL").length logs.length
       ≤ mkRat 1 10 →
      ∀ a ∈ (log_analyze labelsOpt logs known).anomalies,
        a.anomaly_type ≠ "error_surge") := by
  rw [log_analyze_anomalies_eq labelsOpt logs known h]
  constructor
  · intro hrate
    refine ⟨_, List.mem_append_right _
      (by rw [detect_error_surges_of_surge logs hrate]; exact List.mem_cons_self _ _),
      rfl, rfl⟩
  · intro hrate a ha
    rcases List.mem_append.mp ha with hnp | hsg
    · rw [detect_new_patterns_type _ _ _ hnp]
      decide
    · rw [detect_error_surges_of_quiet logs hrate] at hsg
      exact absurd hsg (List.not_mem_nil a)

def c7SurgeBatch : List LogEntry :=
  List.replicate 2 { message := "Database timeout", severity := "ERROR",
                     timestamp := 0, service_name := "api" }
    ++ List.replicate 8 { message := "ok", severity := "INFO",
                          timestamp := 0, service_name := "api" }

def c7QuietBatch : List LogEntry :=
  { message := "Database timeout", severity := "ERROR",
    timestamp := 0, service_name := "api" }
    :: List.replicate 19 { message := "ok", severity := "INFO",
                           timestamp := 0, service_name := "api" }

/-- Witness for C7 (amended): a 10-log batch with 2 errors (ratio 0.2,
strictly above 0.1 but not above 0.2) yields a medium error-surge anomaly;
a 20-log batch with 1 error (ratio 0.05) yields none. -/
theorem error_surge_strict_threshold_witness :
    (∃ a ∈ (log_analyze none c7SurgeBatch []).anomalies,
        a.anomaly_type = "error_surge" ∧
        a.severity = if mkRat (c7SurgeBatch.filter fun l =>
            l.severity == "ERROR" || l.severity == "CRITICAL").length c7SurgeBatch.length
          > mkRat 1 5 then "high" else "medium") ∧
    (∀ a ∈ (log_analyze none c7QuietBatch []).anomalies,
        a.anomaly_type ≠ "error_surge") :=
  ⟨(error_surge_strict_threshold none [] c7SurgeBatch (by decide)).1 (by decide),
   (error_surge_strict_threshold none [] c7QuietBatch (by decide)).2 (by decide)⟩

def c7BoundaryBatch : List LogEntry :=
  { message := "Database timeout", severity := "ERROR",
    timestamp := 0, service_name := "api" }
    :: List.replicate 9 { message := "ok", severity := "INFO",
                          timestamp := 0, service_name := "api" }

set_option maxRecDepth 1000000 in
/-- C7 fails on the code at a ratio of exactly 0.1: the comparison in
_detect_error_surges is strict (error_rate > 0.1), so a 10-log batch with
exactly one ERROR — ratio 0.1, which the claim says must yield an
error-surge anomaly — yields none. -/
theorem error_surge_at_ten_percent_missing :
    mkRat (c7BoundaryBatch.filter fun l =>
        l.severity == "ERROR" || l.severity == "CRITICAL").length c7BoundaryBatch.length
      = mkRat 1 10 ∧
    (log_analyze (some [-1, -1]) c7BoundaryBatch []).anomalies.filter
        (fun a => a.anomaly_type == "error_surge") = [] :=
  ⟨by decide, by decide⟩

theorem lookup_severity_counts (logs : List LogEntry) (acc : List (String × Nat))
    (k : String) :
    (lookupKV k (logs.foldl
        (fun acc log => setKV log.severity ((lookupKV log.severity acc).getD 0 + 1) acc)
        acc)).getD 0
      = (lookupKV k acc).getD 0 + (logs.filter fun l => l.severity == k).length := by
  induction logs generalizing acc with
  | nil => simp
  | cons l ls ih =>
    rw [List.foldl_cons, ih]
    by_cases h : l.severity = k
    · rw [h, lookupKV_setKV_same]
      simp [List.filter_cons, h]
      omega
    · rw [lookupKV_setKV_other _ _ _ _ (Ne.symm h)]
      simp [List.filter_cons, h]

/-- C10: In the summary produced by LogAnalyzer.analyze, error_rate equals
the count of logs with severity exactly "ERROR" divided by the total log
count — logs with severity CRITICAL are excluded — so a non-empty batch
consisting only of CRITICAL logs has summary error_rate 0.0 even though the
error-surge detector (which counts both ERROR and CRITICAL) fires exactly
one error-surge anomaly on it. -/
theorem summary_error_rate_excludes_critical :
    (∀ (labelsOpt : Option (List Int)) (known : List String) (logs : List LogEntry),
      logs ≠ [] →
      (log_analyze labelsOpt logs known).summary.error_rate
        = mkRat (logs.filter fun l => l.severity == "ERROR").length logs.length) ∧
    (∀ (labelsOpt : Option (List Int)) (known : List String) (logs : List LogEntry),
      logs ≠ [] → (∀ l ∈ logs, l.severity = "CRITICAL") →
      (log_analyze labelsOpt logs known).summary.error_rate = 0 ∧
      ((log_analyze labelsOpt logs known).anomalies.filter
        (fun a => a.anomaly_type == "error_surge")).length = 1) := by
  have partA : ∀ (labelsOpt : Option (List Int)) (known : List String)
      (logs : List LogEntry), logs ≠ [] →
      (log_analyze labelsOpt logs known).summary.error_rate
        = mkRat (logs.filter fun l => l.severity == "ERROR").length logs.length := by
    intro labelsOpt known logs h
    rw [log_analyze_summary_eq labelsOpt logs known h, generate_summary]
    have hemp : logs.isEmpty = false := by
      cases logs with
      | nil => exact absurd rfl h
      | cons a l => rfl
    simp only [hemp, Bool.false_eq_true, if_false]
    rw [show (lookupKV "ERROR" (logs.foldl
        (fun acc log => setKV log.severity ((lookupKV log.severity acc).getD 0 + 1) acc)
        [])).getD 0
      = (logs.filter fun l => l.severity == "ERROR").length from by
        rw [lookup_severity_counts]; simp [lookupKV]]
  refine ⟨partA, ?_⟩
  intro labelsOpt known logs h hall
  constructor
  · rw [partA labelsOpt known logs h]
    rw [show (logs.filter fun l => l.severity == "ERROR") = [] from by
      rw [List.filter_eq_nil_iff]
      intro a ha
      simp [hall a ha]]
    simp
  · rw [log_analyze_anomalies_eq labelsOpt logs known h]
    have hfe : (logs.filter fun l =>
        l.severity == "ERROR" || l.severity == "CRITICAL") = logs := by
      rw [List.filter_eq_self]
      intro a ha
      simp [hall a ha]
    have hlen : (0 : Nat) < logs.length := by
      cases logs with
      | nil => exact absurd rfl h
      | cons a l => simp
    have hone : mkRat logs.length logs.length = 1 := by
      rw [Rat.mkRat_eq_div]
      push_cast
      exact div_self (Nat.cast_ne_zero.mpr hlen.ne')
    have hsurge := detect_error_surges_of_surge logs
      (by rw [hfe, hone]; decide)
    rw [List.filter_append, hsurge]
    rw [show (detect_new_patterns (pattern_analyze labelsOpt logs) known).filter
        (fun a => a.anomaly_type == "error_surge") = [] from by
      rw [List.filter_eq_nil_iff]
      intro a ha
      rw [detect_new_patterns_type _ _ _ ha]
      decide]
    simp

def c10Batch : List LogEntry :=
  [{ message := "OutOfMemory", severity := "CRITICAL", timestamp := 0,
     service_name := "api" }]

/-- Witness for C10 at a one-log all-CRITICAL batch: the summary error_rate
is 0 while exactly one error-surge anomaly is produced. -/
theorem summary_error_rate_excludes_critical_witness :
    (log_analyze none c10Batch []).summary.error_rate
      = mkRat (c10Batch.filter fun l => l.severity == "ERROR").length c10Batch.length ∧
    (log_analyze none c10Batch []).summary.error_rate = 0 ∧
    ((log_analyze none c10Batch []).anomalies.filter
      (fun a => a.anomaly_type == "error_surge")).length = 1 :=
  ⟨summary_error_rate_excludes_critical.1 none [] c10Batch (by decide),
   (summary_error_rate_excludes_critical.2 none [] c10Batch (by decide) (by decide)).1,
   (summary_error_rate_excludes_critical.2 none [] c10Batch (by decide) (by decide)).2⟩

theorem build_cluster_id (cluster_id : Int) (signatures : List String)
    (groups : List (String × SigGroup)) :
    (build_cluster cluster_id signatures groups).cluster_id = cluster_id := rfl

theorem build_cluster_size (cluster_id : Int) (signatures : List String)
    (groups : List (String × SigGroup)) :
    (build_cluster cluster_id signatures groups).size = signatures.length := rfl

theorem countP_dedupAux (a : Int) (l : List Int) : ∀ seen : List Int,
    (dedupAux seen l).countP (fun x => x == a)
      = if a ∉ seen ∧ a ∈ l then 1 else 0 := by
  induction l with
  | nil => intro seen; simp [dedupAux]
  | cons x xs ih =>
    intro seen
    rw [dedupAux]
    by_cases hx : x ∈ seen
    · rw [if_pos hx, ih seen]
      by_cases hax : a = x
      · subst hax
        simp [hx]
      · simp [List.mem_cons, hax]
    · rw [if_neg hx, List.countP_cons, ih (x :: seen)]
      by_cases hax : a = x
      · subst hax
        simp [hx, List.mem_cons]
      · simp [List.mem_cons, hax, Ne.symm hax]

theorem cluster_patterns_spec (labels : List Int) (groups : List (String × SigGroup))
    (h2 : 2 ≤ groups.length) :
    cluster_patterns (some labels) groups
      = sortClusters ((dedupList labels).map fun lbl =>
          build_cluster lbl
            ((((groups.map (·.1)).zip labels).filter (fun sl => sl.2 == lbl)).map (·.1))
            groups) := by
  rw [cluster_patterns, if_neg (by omega)]

theorem pattern_analyze_clusters_eq (labelsOpt : Option (List Int)) (logs : List LogEntry)
    (h : logs ≠ []) (hg : group_by_signature logs ≠ []) :
    (pattern_analyze labelsOpt logs).clusters
        = cluster_patterns labelsOpt (group_by_signature logs) ∧
    (pattern_analyze labelsOpt logs).noise_count
        = ((cluster_patterns labelsOpt (group_by_signature logs)).filter
            (fun c => c.cluster_id == -1)).length := by
  have h1 : logs.isEmpty = false := by
    cases logs with
    | nil => exact absurd rfl h
    | cons a l => rfl
  have hg1 : (group_by_signature logs).isEmpty = false := by
    cases hgg : group_by_signature logs with
    | nil => exact absurd hgg hg
    | cons g gs => rfl
  constructor <;>
    · rw [pattern_analyze]
      simp only [h1, hg1, Bool.false_eq_true, if_false]

/-- C9 (amended): In every PatternAnalysis produced by
PatternAnalyzer.analyze over a batch with at least 2 distinct signatures,
the signatures DBSCAN labels as noise are NOT kept as singleton clusters:
they are all merged into the single cluster carrying cluster_id −1, whose
size is the number of noise-labelled signatures; noise_count counts the
clusters with id −1 (so it is 1 when any outlier exists, not the number of
outliers); and the returned clusters are sorted by descending total_count. -/
theorem dbscan_noise_merged_and_sorted (logs : List LogEntry) (labels : List Int)
    (h2 : 2 ≤ (group_by_signature logs).length) :
    List.Sorted clusterGE (pattern_analyze (some labels) logs).clusters ∧
    (pattern_analyze (some labels) logs).noise_count
      = (if (-1 : Int) ∈ labels then 1 else 0) ∧
    (∀ c ∈ (pattern_analyze (some labels) logs).clusters, c.cluster_id = -1 →
      c.size = (((group_by_signature logs).map (·.1)).zip labels).countP
          (fun sl => sl.2 == -1)) := by
  have hlogs : logs ≠ [] := by
    intro hh
    subst hh
    exact absurd h2 (by decide)
  have hg : group_by_signature logs ≠ [] := by
    intro hh
    rw [hh] at h2
    exact absurd h2 (by decide)
  obtain ⟨hcl, hnc⟩ := pattern_analyze_clusters_eq (some labels) logs hlogs hg
  rw [cluster_patterns_spec labels _ h2] at hcl hnc
  refine ⟨?_, ?_, ?_⟩
  · rw [hcl]
    exact List.sorted_insertionSort clusterGE _
  · rw [hnc, ← List.countP_eq_length_filter, sortClusters,
      (List.perm_insertionSort clusterGE _).countP_eq, List.countP_map]
    have hfun : ((fun (c : PatternCluster) => c.cluster_id == -1) ∘ fun lbl =>
        build_cluster lbl
          (((((group_by_signature logs).map (·.1)).zip labels).filter
            (fun sl => sl.2 == lbl)).map (·.1))
          (group_by_signature logs))
        = fun lbl => lbl == -1 := by
      funext lbl
      simp [Function.comp, build_cluster_id]
    rw [hfun, dedupList, countP_dedupAux]
    simp
  · intro c hc hid
    rw [hcl, sortClusters] at hc
    have hc2 := (List.perm_insertionSort clusterGE _).mem_iff.mp hc
    obtain ⟨lbl, hlbl, rfl⟩ := List.mem_map.mp hc2
    rw [build_cluster_id] at hid
    subst hid
    rw [build_cluster_size, List.length_map, ← List.countP_eq_length_filter]

/-- Four log entries with four distinct signatures: two similar "alpha"
messages (which a DBSCAN run may well cluster together) and two unrelated
ones (which such a run labels as noise). -/
def c9Logs : List LogEntry :=
  [{ message := "alpha one", severity := "INFO", timestamp := 0, service_name := "api" },
   { message := "alpha two", severity := "INFO", timestamp := 1, service_name := "api" },
   { message := "gamma delta", severity := "INFO", timestamp := 2, service_name := "api" },
   { message := "epsilon zeta", severity := "INFO", timestamp := 3, service_name := "api" }]

set_option maxRecDepth 1000000 in
/-- Witness for C9 (amended) at `c9Logs` with DBSCAN outcome [0, 0, −1, −1]. -/
theorem dbscan_noise_merged_and_sorted_witness :
    List.Sorted clusterGE (pattern_analyze (some [0, 0, -1, -1]) c9Logs).clusters ∧
    (pattern_analyze (some [0, 0, -1, -1]) c9Logs).noise_count
      = (if (-1 : Int) ∈ [(0 : Int), 0, -1, -1] then 1 else 0) ∧
    (∀ c ∈ (pattern_analyze (some [0, 0, -1, -1]) c9Logs).clusters, c.cluster_id = -1 →
      c.size = (((group_by_signature c9Logs).map (·.1)).zip [(0 : Int), 0, -1, -1]).countP
          (fun sl => sl.2 == -1)) :=
  dbscan_noise_merged_and_sorted c9Logs [0, 0, -1, -1] (by decide)

set_option maxRecDepth 1000000 in
/-- C9 fails on the code: with DBSCAN labelling the two unrelated
signatures of `c9Logs` as noise, both outliers land in one shared cluster
of size 2 with cluster_id −1 — not in singleton clusters of their own — and
noise_count is 1, not the number of outliers (2); in particular no cluster
at all is the singleton of the outlier signature of "epsilon zeta". -/
theorem dbscan_outliers_not_singletons :
    (pattern_analyze (some [0, 0, -1, -1]) c9Logs).noise_count = 1 ∧
    (∃ c ∈ (pattern_analyze (some [0, 0, -1, -1]) c9Logs).clusters,
      c.cluster_id = -1 ∧ c.size = 2) ∧
    ¬ (∃ c ∈ (pattern_analyze (some [0, 0, -1, -1]) c9Logs).clusters,
      c.signature = engine_compute_signature "epsilon zeta" ∧ c.size = 1) :=
  ⟨by decide, by decide, by decide⟩

end LipService
